import Mathlib

/-!
# Verification of the Uber-clone ride backend core

Shallow embedding of the in-memory ride state machine, the payment
orchestration commands it emits, the Stripe webhook deduplicator, the
realtime broadcast rooms, and the fare estimator, translated from the
compiled server source (`src/unnamed/part_001`).  The in-memory maps of
the server (`rides`, `rideRooms`, `processedStripeEvents`) are modelled
as functions / lists; the asynchronous best-effort persistence calls are
not modelled because their failures are swallowed and the in-memory
state is authoritative.
-/

namespace UberClone

/-! ## Ride data model -/

/-- Ride lifecycle status.  `matched` is the reserved value present in the
database schema but never produced by the server. -/
inductive RideStatus
  | requested
  | matched
  | accepted
  | inProgress
  | completed
  | cancelled
  deriving DecidableEq, Repr

/-- A ride record as stored in the in-memory `rides` map.  Pickup/dropoff
coordinates are omitted here because no transition reads them; the quote is
kept as an optional rational (set at creation, read by accept). -/
structure Ride where
  id : String
  status : RideStatus
  driverId : Option String := none
  quoteUsd : Option ℚ := none
  paymentIntentId : Option String := none
  driverLat : Option ℚ := none
  driverLng : Option ℚ := none
  deriving DecidableEq, Repr

/-- The in-memory `rides` map, keyed by ride id. -/
def RideStore := String → Option Ride

/-- `rides.set(rid, r)` (the in-place mutation of the record stored under
`rid` followed by the redundant `set`). -/
def setRide (rides : RideStore) (rid : String) (r : Ride) : RideStore :=
  fun k => if k = rid then some r else rides k

/-- Error codes returned by the ride endpoints. -/
inductive ErrCode
  | notFound
  | invalidState
  | validationError
  deriving DecidableEq, Repr

/-! ## Payment commands

The Stripe calls issued by accept/complete are modelled as command values
so that theorems can inspect the amount and idempotency key the server
sends; the processor's reply is an explicit parameter. -/

/-- `stripe.paymentIntents.create(...)` call as issued on accept. -/
structure PaymentCreateCmd where
  amountCents : ℤ
  currency : String
  manualCapture : Bool
  metadataRideId : String
  idempotencyKey : String
  deriving DecidableEq, Repr

/-- `stripe.paymentIntents.capture(...)` call as issued on complete. -/
structure PaymentCaptureCmd where
  paymentIntentId : String
  idempotencyKey : String
  deriving DecidableEq, Repr

/-- JavaScript `Math.round`: round half toward positive infinity. -/
def jsRound (q : ℚ) : ℤ := ⌊q + 1 / 2⌋

/-! ## Ride transition handlers -/

/-- Parse of the accept body through `z.object({ driverId: z.string().min(1) })`:
succeeds exactly when the field is present with length ≥ 1. -/
def parseDriverId (body : Option String) : Option String :=
  match body with
  | some d => if 1 ≤ d.length then some d else none
  | none => none

/-- The guarded `stripe.paymentIntents.create` call of accept: issued only
when `STRIPE_SECRET_KEY` is set, the quote is truthy and no payment
intent exists yet (`process.env.STRIPE_SECRET_KEY && ride.quoteUsd &&
!ride.paymentIntentId`). -/
def mkCreateCmd (r1 : Ride) (stripeConfigured : Bool) : Option PaymentCreateCmd :=
  match r1.quoteUsd with
  | some q =>
    if stripeConfigured = true ∧ q ≠ 0 ∧ r1.paymentIntentId = none then
      some { amountCents := max 1 (jsRound (q * 100)),
             currency := "usd",
             manualCapture := true,
             metadataRideId := r1.id,
             idempotencyKey := "ride_accept_" ++ r1.id }
    else none
  | none => none

/-- `ride.paymentIntentId = pi.id` when the create call was issued and the
processor replied; the catch swallows a failed call. -/
def applyPay (r1 : Ride) (cmd : Option PaymentCreateCmd) (payOutcome : Option String) : Ride :=
  match cmd, payOutcome with
  | some _, some piId => { r1 with paymentIntentId := some piId }
  | _, _ => r1

/-- `POST /rides/:id/accept`.  `stripeConfigured` models the presence of
`STRIPE_SECRET_KEY`; `payOutcome` is the processor's reply to the create
call (`some piId` on success, `none` when the call throws).  Returns the
new store, the create command issued (if any) and the HTTP-level result. -/
def acceptHandler (rides : RideStore) (rid : String) (body : Option String)
    (stripeConfigured : Bool) (payOutcome : Option String) :
    RideStore × Option PaymentCreateCmd × Except ErrCode Ride :=
  match rides rid with
  | none => (rides, none, .error .notFound)
  | some ride =>
    if ride.status ≠ .requested then
      (rides, none, .error .invalidState)
    else
      match parseDriverId body with
      | none => (rides, none, .error .validationError)
      | some d =>
        let r1 : Ride := { ride with status := .accepted, driverId := some d }
        let cmd := mkCreateCmd r1 stripeConfigured
        let r2 := applyPay r1 cmd payOutcome
        (setRide rides rid r2, cmd, .ok r2)

/-- `POST /rides/:id/start`. -/
def startHandler (rides : RideStore) (rid : String) :
    RideStore × Except ErrCode Ride :=
  match rides rid with
  | none => (rides, .error .notFound)
  | some ride =>
    if ride.status ≠ .accepted then
      (rides, .error .invalidState)
    else
      let r1 : Ride := { ride with status := .inProgress }
      (setRide rides rid r1, .ok r1)

/-- `POST /rides/:id/complete`.  Also returns the capture command, if one
is issued for an existing authorization. -/
def completeHandler (rides : RideStore) (rid : String) (stripeConfigured : Bool) :
    RideStore × Option PaymentCaptureCmd × Except ErrCode Ride :=
  match rides rid with
  | none => (rides, none, .error .notFound)
  | some ride =>
    if ride.status ≠ .inProgress ∧ ride.status ≠ .accepted then
      (rides, none, .error .invalidState)
    else
      let r1 : Ride := { ride with status := .completed }
      let cap : Option PaymentCaptureCmd :=
        match r1.paymentIntentId with
        | some pi =>
          if stripeConfigured = true then
            some { paymentIntentId := pi, idempotencyKey := "ride_complete_" ++ r1.id }
          else none
        | none => none
      (setRide rides rid r1, cap, .ok r1)

/-- `POST /rides/:id/cancel`. -/
def cancelHandler (rides : RideStore) (rid : String) :
    RideStore × Except ErrCode Ride :=
  match rides rid with
  | none => (rides, .error .notFound)
  | some ride =>
    if ride.status ≠ .requested then
      (rides, .error .invalidState)
    else
      let r1 : Ride := { ride with status := .cancelled }
      (setRide rides rid r1, .ok r1)

/-- `POST /rides/:id/driver_location`: body validated by
`z.object({ lat: z.number().gte(-90).lte(90), lng: z.number().gte(-180).lte(180) })`. -/
def driverLocationHandler (rides : RideStore) (rid : String) (lat lng : ℚ) :
    RideStore × Except ErrCode Unit :=
  match rides rid with
  | none => (rides, .error .notFound)
  | some ride =>
    if -90 ≤ lat ∧ lat ≤ 90 ∧ -180 ≤ lng ∧ lng ≤ 180 then
      (setRide rides rid { ride with driverLat := some lat, driverLng := some lng }, .ok ())
    else
      (rides, .error .validationError)

/-! ## The transition system over a single ride id -/

/-- One invocation of a status-changing endpoint on a given ride id. -/
inductive RideOp
  | accept (body : Option String) (stripeConfigured : Bool) (payOutcome : Option String)
  | start
  | complete (stripeConfigured : Bool)
  | cancel

/-- The store after one endpoint invocation (errors leave it unchanged). -/
def applyOp (rides : RideStore) (rid : String) : RideOp → RideStore
  | .accept b s p => (acceptHandler rides rid b s p).1
  | .start => (startHandler rides rid).1
  | .complete s => (completeHandler rides rid s).1
  | .cancel => (cancelHandler rides rid).1

/-- The five status edges of the spec's lifecycle graph. -/
def rideEdges : List (RideStatus × RideStatus) :=
  [(.requested, .accepted), (.accepted, .inProgress), (.inProgress, .completed),
   (.accepted, .completed), (.requested, .cancelled)]

/-- Lifecycle progress measure: terminal states rank highest, and every
edge of the graph strictly increases the rank. -/
def statusRank : RideStatus → Nat
  | .requested => 0
  | .matched => 0
  | .accepted => 1
  | .inProgress => 2
  | .completed => 3
  | .cancelled => 3

/-! ## Demo store used by witnesses -/

/-- A freshly created ride, as `POST /rides` stores it. -/
def demoRide : Ride := { id := "ride_1", status := .requested, quoteUsd := some 10 }

/-- Store holding only `demoRide`. -/
def demoStore : RideStore := fun k => if k = "ride_1" then some demoRide else none

/-- A completed ride, used to probe terminal-status behaviour. -/
def doneRide : Ride := { id := "ride_2", status := .completed }

/-- Store holding only `doneRide`. -/
def doneStore : RideStore := fun k => if k = "ride_2" then some doneRide else none

/-! ## Stripe webhook deduplicator

`processedStripeEvents` is an insertion-ordered set capped at 1000 (the
oldest entry is evicted); the `stripe_events` table is the authoritative
tier when Supabase is configured.  `supabase.insert` reports a duplicate
key in its return value (which the handler ignores) rather than throwing,
so the database tier behaves as insert-if-absent. -/

/-- State of the deduplicator: the database tier (when ready) and the
in-process fallback set in insertion order. -/
structure WebhookState where
  dbReady : Bool
  dbEvents : List String
  memEvents : List String
  deriving DecidableEq, Repr

/-- `isEventProcessed`: database hit when ready, otherwise (or on a miss)
the in-memory set. -/
def isEventProcessed (s : WebhookState) (eid : String) : Bool :=
  (s.dbReady && s.dbEvents.contains eid) || s.memEvents.contains eid

/-- `processedStripeEvents.add(id)` followed by the size-capped eviction of
the oldest element. -/
def memAdd (mem : List String) (eid : String) : List String :=
  let m1 := if eid ∈ mem then mem else mem ++ [eid]
  if 1000 < m1.length then m1.tail else m1

/-- `markEventProcessed`: insert into the database when ready, else into
the bounded in-memory set. -/
def markEventProcessed (s : WebhookState) (eid : String) : WebhookState :=
  if s.dbReady then
    { s with dbEvents := if eid ∈ s.dbEvents then s.dbEvents else s.dbEvents ++ [eid] }
  else
    { s with memEvents := memAdd s.memEvents eid }

/-- Responses of `POST /webhooks/stripe`. -/
inductive WebhookResponse
  | missingSignature
  | signatureError
  | duplicateAck
  | processedAck (etype : String)
  deriving DecidableEq, Repr

/-- `POST /webhooks/stripe`.  `sig` is the `stripe-signature` header;
`sigValid` is whether `stripe.webhooks.constructEvent` verifies it (a
failure throws into the catch).  The `switch` on the event type is a
no-op placeholder in the source. -/
def handleWebhook (s : WebhookState) (sig : Option String) (sigValid : Bool)
    (eid etype : String) : WebhookState × WebhookResponse :=
  match sig with
  | none => (s, .missingSignature)
  | some _ =>
    if sigValid = false then (s, .signatureError)
    else if isEventProcessed s eid then (s, .duplicateAck)
    else (markEventProcessed s eid, .processedAck etype)

/-! ## Realtime broadcast rooms -/

/-- A websocket connection identifier. -/
abbrev Conn := Nat

/-- `rideRooms`: ride id → set of subscribed connections (a JS `Set`,
modelled as a duplicate-free list in insertion order; an absent room is
the empty list). -/
def Rooms := String → List Conn

/-- `addSocketToRide`. -/
def addSocketToRide (rooms : Rooms) (rid : String) (c : Conn) : Rooms :=
  fun k =>
    if k = rid then (if c ∈ rooms rid then rooms rid else rooms rid ++ [c])
    else rooms k

/-- The `close` handler: `rideRooms.get(rideId)?.delete(ws)`. -/
def removeSocketFromRide (rooms : Rooms) (rid : String) (c : Conn) : Rooms :=
  fun k => if k = rid then (rooms rid).filter (fun x => x ≠ c) else rooms k

/-- `broadcastToRide` attempts one `send` per current member of the room;
`sendOk c = false` models `client.send` throwing for that connection (the
exception is swallowed per connection).  Returns the connections whose
send succeeded; the room state is untouched. -/
def broadcastDelivered (rooms : Rooms) (rid : String) (sendOk : Conn → Bool) :
    List Conn :=
  (rooms rid).filter sendOk

/-! ## Fare estimator (real-valued model of the float computation) -/

/-- Ride class enum of the request schema. -/
inductive RideClass
  | standard
  | premium
  | xl
  deriving DecidableEq, Repr

/-- A latitude/longitude pair, real-valued. -/
structure GeoPoint where
  lat : ℝ
  lng : ℝ

/-- Degrees to radians. -/
noncomputable def toRad (n : ℝ) : ℝ := n * Real.pi / 180

/-- `haversineKm` from the source (Earth radius 6371 km). -/
noncomputable def haversineKm (a b : GeoPoint) : ℝ :=
  let R : ℝ := 6371
  let dLat := toRad (b.lat - a.lat)
  let dLng := toRad (b.lng - a.lng)
  let lat1 := toRad a.lat
  let lat2 := toRad b.lat
  let h := Real.sin (dLat / 2) ^ 2 +
    Real.cos lat1 * Real.cos lat2 * Real.sin (dLng / 2) ^ 2
  2 * R * Real.arcsin (Real.sqrt h)

/-- JavaScript `Math.round` over the reals. -/
noncomputable def jsRoundR (x : ℝ) : ℤ := ⌊x + 1 / 2⌋

/-- The quote attached at ride creation (`POST /rides`, lines 69–71):
`Math.max(5, Math.round((2.5 + km * perKm) * 100) / 100)`. -/
noncomputable def rideCreationQuoteUsd (pickup dropoff : GeoPoint) (c : RideClass) : ℝ :=
  let km := haversineKm pickup dropoff
  let perKm : ℝ := match c with
    | .premium => 1.8
    | .xl => 2.0
    | .standard => 1.2
  max 5 ((jsRoundR ((2.5 + km * perKm) * 100) : ℝ) / 100)

/-- The standalone quote (`POST /rides/quote`, lines 276–279). -/
noncomputable def quoteEstimateUsd (pickup dropoff : GeoPoint) (c : RideClass) : ℝ :=
  let km := haversineKm pickup dropoff
  let base : ℝ := 2.5
  let perKm : ℝ := match c with
    | .premium => 1.8
    | .xl => 2.0
    | .standard => 1.2
  max 5 ((jsRoundR ((base + km * perKm) * 100) : ℝ) / 100)

/-- Modelled from the spec: per-class rate table (standard 1.2, premium
1.8, xl 2.0). -/
noncomputable def specRatePerClass : RideClass → ℝ
  | .standard => 1.2
  | .premium => 1.8
  | .xl => 2.0

/-- Modelled from the spec: `round_to_cents`. -/
noncomputable def specRoundToCents (x : ℝ) : ℝ := (⌊x * 100 + 1 / 2⌋ : ℝ) / 100

/-- Modelled from the spec: `max(5, round_to_cents(base_fare + distance_km
* rate_per_class))` with base fare 2.5. -/
noncomputable def specFare (km : ℝ) (c : RideClass) : ℝ :=
  max 5 (specRoundToCents (2.5 + km * specRatePerClass c))

/-! ## Helper lemmas -/

/-- A string is non-empty iff its length is at least 1 (zod's `min(1)`). -/
theorem string_ne_empty_iff (s : String) : s ≠ "" ↔ 1 ≤ s.length := by
  rw [Nat.one_le_iff_ne_zero]
  constructor
  · intro h hz
    apply h
    cases s with
    | mk data =>
      simp [String.length] at hz
      simp [hz]
  · intro h he
    subst he
    exact h rfl

/-- `parseDriverId` succeeds exactly on a present, non-empty driver id. -/
theorem parseDriverId_some_iff (body : Option String) (d : String) :
    parseDriverId body = some d ↔ body = some d ∧ d ≠ "" := by
  cases body with
  | none => simp [parseDriverId]
  | some s =>
    by_cases hlen : 1 ≤ s.length
    · simp only [parseDriverId, if_pos hlen, Option.some.injEq]
      constructor
      · intro h
        subst h
        exact ⟨rfl, (string_ne_empty_iff s).mpr hlen⟩
      · rintro ⟨h, _⟩
        exact h
    · simp only [parseDriverId, if_neg hlen]
      constructor
      · intro h
        exact absurd h (by simp)
      · rintro ⟨h, hne⟩
        cases h
        exact absurd ((string_ne_empty_iff d).mp hne) hlen

/-- `applyPay` never changes the status. -/
theorem applyPay_status (r1 : Ride) (cmd : Option PaymentCreateCmd) (pay : Option String) :
    (applyPay r1 cmd pay).status = r1.status := by
  cases cmd <;> cases pay <;> rfl

/-- `applyPay` never changes the driver id. -/
theorem applyPay_driverId (r1 : Ride) (cmd : Option PaymentCreateCmd) (pay : Option String) :
    (applyPay r1 cmd pay).driverId = r1.driverId := by
  cases cmd <;> cases pay <;> rfl

/-- `applyPay` never changes the ride id. -/
theorem applyPay_id (r1 : Ride) (cmd : Option PaymentCreateCmd) (pay : Option String) :
    (applyPay r1 cmd pay).id = r1.id := by
  cases cmd <;> cases pay <;> rfl

/-- With no create command or no processor reply, `applyPay` is the
identity. -/
theorem applyPay_eq_self (r1 : Ride) (cmd : Option PaymentCreateCmd) (pay : Option String)
    (h : cmd = none ∨ pay = none) : applyPay r1 cmd pay = r1 := by
  cases cmd <;> cases pay <;> first | rfl | (rcases h with h | h <;> exact absurd h (by simp))

/-- A create command is only issued when no payment intent exists yet, and
it carries the `ride_accept_` idempotency key, manual capture, the ride id
tag and the quote amount in minor units. -/
theorem mkCreateCmd_some (r1 : Ride) (scfg : Bool) (c : PaymentCreateCmd)
    (h : mkCreateCmd r1 scfg = some c) :
    r1.paymentIntentId = none ∧ scfg = true ∧
    c.idempotencyKey = "ride_accept_" ++ r1.id ∧ c.manualCapture = true ∧
    c.metadataRideId = r1.id ∧ c.currency = "usd" ∧
    ∃ q, r1.quoteUsd = some q ∧ q ≠ 0 ∧ c.amountCents = max 1 (jsRound (q * 100)) := by
  cases hq : r1.quoteUsd with
  | none => simp [mkCreateCmd, hq] at h
  | some q =>
    simp only [mkCreateCmd, hq] at h
    by_cases hc : scfg = true ∧ q ≠ 0 ∧ r1.paymentIntentId = none
    · rw [if_pos hc] at h
      obtain ⟨hs, hq0, hpi⟩ := hc
      cases h
      exact ⟨hpi, hs, rfl, rfl, rfl, rfl, q, rfl, hq0, rfl⟩
    · rw [if_neg hc] at h
      exact absurd h (by simp)

/-- When the ride already has a payment intent, no create command is
issued. -/
theorem mkCreateCmd_none_of_pi (r1 : Ride) (scfg : Bool) (p : String)
    (h : r1.paymentIntentId = some p) : mkCreateCmd r1 scfg = none := by
  cases hq : r1.quoteUsd with
  | none => simp [mkCreateCmd, hq]
  | some q => simp [mkCreateCmd, hq, h]

/-- Adding an id to the bounded set keeps it present as long as the set
respects its capacity bound beforehand. -/
theorem mem_memAdd (mem : List String) (eid : String) (hlen : mem.length ≤ 1000) :
    eid ∈ memAdd mem eid := by
  unfold memAdd
  by_cases hin : eid ∈ mem
  · have hno : ¬ 1000 < mem.length := by omega
    simp [hin, hno]
  · simp only [if_neg hin]
    by_cases hl : 1000 < (mem ++ [eid]).length
    · simp only [if_pos hl]
      cases mem with
      | nil => simp at hl
      | cons a t => simp
    · have hl2 : ¬ 1000 < mem.length + 1 := by simpa using hl
      simp [hl2]

/-- The bounded set never exceeds its capacity. -/
theorem memAdd_length (mem : List String) (eid : String) (hlen : mem.length ≤ 1000) :
    (memAdd mem eid).length ≤ 1000 := by
  unfold memAdd
  by_cases hin : eid ∈ mem
  · have hno : ¬ 1000 < mem.length := by omega
    simp [hin, hno]
    omega
  · simp only [if_neg hin]
    by_cases hl : 1000 < (mem ++ [eid]).length
    · simp only [if_pos hl]
      simp at hl ⊢
      omega
    · simp only [if_neg hl]
      simp at hl ⊢
      omega

/-- Adding an already-present id to a within-capacity set is a no-op. -/
theorem memAdd_of_mem (m : List String) (eid : String) (hin : eid ∈ m)
    (hlen : m.length ≤ 1000) : memAdd m eid = m := by
  unfold memAdd
  have hno : ¬ 1000 < m.length := by omega
  simp [hin, hno]

/-- After marking, the event id tests as processed. -/
theorem isEventProcessed_mark (s : WebhookState) (eid : String)
    (hlen : s.memEvents.length ≤ 1000) :
    isEventProcessed (markEventProcessed s eid) eid = true := by
  unfold markEventProcessed isEventProcessed
  by_cases hdb : s.dbReady
  · by_cases hin : eid ∈ s.dbEvents <;> simp [hdb, hin]
  · simp [hdb]
    exact mem_memAdd _ _ hlen

/-- Marking is idempotent on states within the capacity bound. -/
theorem markEventProcessed_idem (s : WebhookState) (eid : String)
    (hlen : s.memEvents.length ≤ 1000) :
    markEventProcessed (markEventProcessed s eid) eid = markEventProcessed s eid := by
  by_cases hdb : s.dbReady
  · have hin : eid ∈ (if eid ∈ s.dbEvents then s.dbEvents else s.dbEvents ++ [eid]) := by
      by_cases hin0 : eid ∈ s.dbEvents <;> simp [hin0]
    simp [markEventProcessed, hdb, hin]
  · simp only [markEventProcessed, hdb, if_neg, Bool.false_eq_true, if_false]
    have h1 : eid ∈ memAdd s.memEvents eid := mem_memAdd _ _ hlen
    have h2 : (memAdd s.memEvents eid).length ≤ 1000 := memAdd_length _ _ hlen
    simp [memAdd_of_mem _ _ h1 h2]

/-! ## Claim theorems -/

/-- C2: for a known ride, accept succeeds iff the ride is in status
`requested` and the body carries a non-empty driver id; on any other
status the handler answers `INVALID_STATE` and leaves the store (hence
the ride record, its status and driver id) untouched. -/
theorem accept_success_iff (rides : RideStore) (rid : String) (body : Option String)
    (scfg : Bool) (pay : Option String) (r : Ride) (h : rides rid = some r) :
    ((∃ r', (acceptHandler rides rid body scfg pay).2.2 = Except.ok r') ↔
      (r.status = RideStatus.requested ∧ ∃ d, body = some d ∧ d ≠ ""))
    ∧ (r.status ≠ RideStatus.requested →
        (acceptHandler rides rid body scfg pay).2.2 = Except.error ErrCode.invalidState ∧
        (acceptHandler rides rid body scfg pay).1 = rides) := by
  by_cases hst : r.status = RideStatus.requested
  · cases hpd : parseDriverId body with
    | none =>
      simp only [acceptHandler, h, hst, hpd, ne_eq, not_true_eq_false, if_false]
      constructor
      · constructor
        · rintro ⟨r', hr'⟩
          simp at hr'
        · rintro ⟨-, d, hd⟩
          exact absurd ((parseDriverId_some_iff body d).mpr hd) (by simp [hpd])
      · intro hne
        exact hne.elim
    | some d =>
      simp only [acceptHandler, h, hst, hpd, ne_eq, not_true_eq_false, if_false]
      constructor
      · constructor
        · intro _
          exact ⟨trivial, d, (parseDriverId_some_iff body d).mp hpd⟩
        · intro _
          exact ⟨_, rfl⟩
      · intro hne
        exact hne.elim
  · simp only [acceptHandler, h, if_pos hst]
    constructor
    · constructor
      · rintro ⟨r', hr'⟩
        exact absurd hr' (by simp)
      · rintro ⟨hreq, -⟩
        exact absurd hreq hst
    · intro _
      exact ⟨by simp, by simp⟩

/-- C2 witness: accepting the freshly requested demo ride with driver
`"drv"` succeeds. -/
theorem accept_success_iff_witness :
    ∃ r', (acceptHandler demoStore "ride_1" (some "drv") false none).2.2 = Except.ok r' :=
  (accept_success_iff demoStore "ride_1" (some "drv") false none demoRide rfl).1.mpr
    ⟨rfl, "drv", rfl, by decide⟩

/-- C10: the error checks of accept are strictly ordered — an unknown ride
id yields `NOT_FOUND` whatever the body; a known ride not in `requested`
yields `INVALID_STATE` whatever the body; `VALIDATION_ERROR` can only
arise for a known ride in `requested` whose driver id fails to parse. -/
theorem accept_error_order (rides : RideStore) (rid : String) (body : Option String)
    (scfg : Bool) (pay : Option String) :
    (rides rid = none →
        (acceptHandler rides rid body scfg pay).2.2 = Except.error ErrCode.notFound)
    ∧ (∀ r, rides rid = some r → r.status ≠ RideStatus.requested →
        (acceptHandler rides rid body scfg pay).2.2 = Except.error ErrCode.invalidState)
    ∧ ((acceptHandler rides rid body scfg pay).2.2 = Except.error ErrCode.validationError →
        ∃ r, rides rid = some r ∧ r.status = RideStatus.requested ∧
          parseDriverId body = none) := by
  refine ⟨?_, ?_, ?_⟩
  · intro h
    simp [acceptHandler, h]
  · intro r h hst
    simp [acceptHandler, h, if_pos hst]
  · intro hval
    cases hr : rides rid with
    | none =>
      simp [acceptHandler, hr] at hval
    | some r =>
      by_cases hst : r.status = RideStatus.requested
      · refine ⟨r, rfl, hst, ?_⟩
        cases hpd : parseDriverId body with
        | none => rfl
        | some d =>
          simp only [acceptHandler, hr, hst, hpd, ne_eq, not_true_eq_false, if_false] at hval
          exact absurd hval (by simp)
      · simp only [acceptHandler, hr, if_pos hst] at hval
        exact absurd hval (by simp)

/-- C10 witness: an unknown id with a missing body gives `NOT_FOUND`, and
a completed ride with a missing body gives `INVALID_STATE` (not
`VALIDATION_ERROR`). -/
theorem accept_error_order_witness :
    (acceptHandler demoStore "missing" none false none).2.2 = Except.error ErrCode.notFound ∧
    (acceptHandler doneStore "ride_2" none false none).2.2 = Except.error ErrCode.invalidState :=
  ⟨(accept_error_order demoStore "missing" none false none).1 rfl,
   (accept_error_order doneStore "ride_2" none false none).2.1 doneRide rfl (by decide)⟩

/-- Store after accepting the demo ride with driver `"drv"`. -/
def demoStore1 : RideStore :=
  applyOp demoStore "ride_1" (.accept (some "drv") false none)

/-- Store after additionally starting the demo ride. -/
def demoStore2 : RideStore := applyOp demoStore1 "ride_1" .start

/-- Store after additionally completing the demo ride. -/
def demoStore3 : RideStore := applyOp demoStore2 "ride_1" (.complete false)

/-- The accepted demo ride. -/
def acceptedDemoRide : Ride :=
  { demoRide with status := .accepted, driverId := some "drv" }

/-- C1: every endpoint invocation either leaves a ride's status unchanged
or moves it along one of the five lifecycle edges; the lifecycle rank
never decreases; and the full path requested → accepted → in_progress →
completed is reachable (witnessed on the demo ride). -/
theorem ride_lifecycle :
    (∀ (rides : RideStore) (rid : String) (op : RideOp) (r r' : Ride),
        rides rid = some r → applyOp rides rid op rid = some r' →
        (r'.status = r.status ∨ (r.status, r'.status) ∈ rideEdges) ∧
          statusRank r.status ≤ statusRank r'.status)
    ∧ ((demoStore "ride_1").map Ride.status = some RideStatus.requested
       ∧ (demoStore1 "ride_1").map Ride.status = some RideStatus.accepted
       ∧ (demoStore2 "ride_1").map Ride.status = some RideStatus.inProgress
       ∧ (demoStore3 "ride_1").map Ride.status = some RideStatus.completed) := by
  constructor
  · intro rides rid op r r' h h'
    cases op with
    | accept body scfg pay =>
      by_cases hst : r.status = RideStatus.requested
      · cases hpd : parseDriverId body with
        | none =>
          simp only [applyOp, acceptHandler, h, hst, hpd, ne_eq, not_true_eq_false,
            if_false] at h'
          have heq : r = r' := by injection h'
          subst heq
          exact ⟨Or.inl rfl, le_refl _⟩
        | some d =>
          simp only [applyOp, acceptHandler, h, hst, hpd, ne_eq, not_true_eq_false,
            if_false, setRide, if_pos, ite_true, eq_self_iff_true,
            Option.some.injEq] at h'
          rw [← h']
          constructor
          · right
            rw [hst, applyPay_status]
            simp [rideEdges]
          · rw [hst, applyPay_status]
            simp [statusRank]
      · simp only [applyOp, acceptHandler, h, if_pos hst] at h'
        have heq : r = r' := by injection h'
        subst heq
        exact ⟨Or.inl rfl, le_refl _⟩
    | start =>
      by_cases hst : r.status = RideStatus.accepted
      · simp only [applyOp, startHandler, h, hst, ne_eq, not_true_eq_false, if_false,
          setRide, ite_true, eq_self_iff_true, Option.some.injEq] at h'
        rw [← h']
        rw [hst]
        exact ⟨Or.inr (by simp [rideEdges]), by simp [statusRank]⟩
      · simp only [applyOp, startHandler, h, if_pos hst] at h'
        have heq : r = r' := by injection h'
        subst heq
        exact ⟨Or.inl rfl, le_refl _⟩
    | complete scfg =>
      by_cases hst : r.status ≠ RideStatus.inProgress ∧ r.status ≠ RideStatus.accepted
      · simp only [applyOp, completeHandler, h, if_pos hst] at h'
        have heq : r = r' := by injection h'
        subst heq
        exact ⟨Or.inl rfl, le_refl _⟩
      · simp only [applyOp, completeHandler, h, if_neg hst, setRide, ite_true,
          eq_self_iff_true, Option.some.injEq] at h'
        rw [← h']
        rcases not_and_or.mp hst with hs | hs
        all_goals rw [not_not] at hs
        all_goals rw [hs]
        · exact ⟨Or.inr (by simp [rideEdges]), by simp [statusRank]⟩
        · exact ⟨Or.inr (by simp [rideEdges]), by simp [statusRank]⟩
    | cancel =>
      by_cases hst : r.status = RideStatus.requested
      · simp only [applyOp, cancelHandler, h, hst, ne_eq, not_true_eq_false, if_false,
          setRide, ite_true, eq_self_iff_true, Option.some.injEq] at h'
        rw [← h']
        rw [hst]
        exact ⟨Or.inr (by simp [rideEdges]), by simp [statusRank]⟩
      · simp only [applyOp, cancelHandler, h, if_pos hst] at h'
        have heq : r = r' := by injection h'
        subst heq
        exact ⟨Or.inl rfl, le_refl _⟩
  · refine ⟨rfl, ?_, ?_, ?_⟩ <;> rfl

/-- C1 witness: the accept transition on the demo ride takes the
requested → accepted edge and does not decrease the rank. -/
theorem ride_lifecycle_witness :
    (acceptedDemoRide.status = demoRide.status ∨
      (demoRide.status, acceptedDemoRide.status) ∈ rideEdges) ∧
    statusRank demoRide.status ≤ statusRank acceptedDemoRide.status :=
  ride_lifecycle.1 demoStore "ride_1" (RideOp.accept (some "drv") false none)
    demoRide acceptedDemoRide rfl (by decide)

/-- A ride that has been accepted and carries a payment authorization. -/
def paidRide : Ride :=
  { id := "ride_3", status := .accepted, driverId := some "drv",
    quoteUsd := some 10, paymentIntentId := some "pi_9" }

/-- Store holding only `paidRide`. -/
def paidStore : RideStore := fun k => if k = "ride_3" then some paidRide else none

/-- C3: a payment authorization reference, once set, is never cleared or
replaced by any operation; a create command is only issued for a ride that
has no authorization yet (and is being accepted from `requested`); and a
processor failure during accept does not block the transition — the ride
still becomes `accepted` with the driver bound, the call succeeds, and the
authorization field is left as it was (no authorization attached). -/
theorem payment_auth_invariants :
    (∀ (rides : RideStore) (rid : String) (op : RideOp) (r r' : Ride) (p : String),
        rides rid = some r → r.paymentIntentId = some p →
        applyOp rides rid op rid = some r' → r'.paymentIntentId = some p)
    ∧ (∀ (rides : RideStore) (rid : String) (body : Option String) (scfg : Bool)
        (pay : Option String) (r : Ride) (c : PaymentCreateCmd),
        rides rid = some r →
        (acceptHandler rides rid body scfg pay).2.1 = some c →
        r.paymentIntentId = none ∧ r.status = RideStatus.requested)
    ∧ (∀ (rides : RideStore) (rid : String) (body : Option String) (scfg : Bool)
        (r : Ride) (d : String),
        rides rid = some r → r.status = RideStatus.requested →
        parseDriverId body = some d →
        ∃ r', (acceptHandler rides rid body scfg none).2.2 = Except.ok r' ∧
          (acceptHandler rides rid body scfg none).1 rid = some r' ∧
          r'.status = RideStatus.accepted ∧ r'.driverId = some d ∧
          r'.paymentIntentId = r.paymentIntentId) := by
  refine ⟨?_, ?_, ?_⟩
  · intro rides rid op r r' p h hp h'
    cases op with
    | accept body scfg pay =>
      by_cases hst : r.status = RideStatus.requested
      · cases hpd : parseDriverId body with
        | none =>
          simp only [applyOp, acceptHandler, h, hst, hpd, ne_eq, not_true_eq_false,
            if_false] at h'
          have heq : r = r' := by injection h'
          subst heq
          exact hp
        | some d =>
          simp only [applyOp, acceptHandler, h, hst, hpd, ne_eq, not_true_eq_false,
            if_false, setRide, ite_true, eq_self_iff_true, Option.some.injEq] at h'
          rw [← h']
          have hpi1 : ({ r with status := RideStatus.accepted, driverId := some d } : Ride).paymentIntentId = some p := hp
          rw [mkCreateCmd_none_of_pi _ scfg p hpi1,
            applyPay_eq_self _ _ _ (Or.inl rfl)]
          exact hpi1
      · simp only [applyOp, acceptHandler, h, if_pos hst] at h'
        have heq : r = r' := by injection h'
        subst heq
        exact hp
    | start =>
      by_cases hst : r.status = RideStatus.accepted
      · simp only [applyOp, startHandler, h, hst, ne_eq, not_true_eq_false, if_false,
          setRide, ite_true, eq_self_iff_true, Option.some.injEq] at h'
        rw [← h']
        exact hp
      · simp only [applyOp, startHandler, h, if_pos hst] at h'
        have heq : r = r' := by injection h'
        subst heq
        exact hp
    | complete scfg =>
      by_cases hst : r.status ≠ RideStatus.inProgress ∧ r.status ≠ RideStatus.accepted
      · simp only [applyOp, completeHandler, h, if_pos hst] at h'
        have heq : r = r' := by injection h'
        subst heq
        exact hp
      · simp only [applyOp, completeHandler, h, if_neg hst, setRide, ite_true,
          eq_self_iff_true, Option.some.injEq] at h'
        rw [← h']
        exact hp
    | cancel =>
      by_cases hst : r.status = RideStatus.requested
      · simp only [applyOp, cancelHandler, h, hst, ne_eq, not_true_eq_false, if_false,
          setRide, ite_true, eq_self_iff_true, Option.some.injEq] at h'
        rw [← h']
        exact hp
      · simp only [applyOp, cancelHandler, h, if_pos hst] at h'
        have heq : r = r' := by injection h'
        subst heq
        exact hp
  · intro rides rid body scfg pay r c h hc
    by_cases hst : r.status = RideStatus.requested
    · cases hpd : parseDriverId body with
      | none =>
        simp only [acceptHandler, h, hst, hpd, ne_eq, not_true_eq_false, if_false] at hc
        exact absurd hc (by simp)
      | some d =>
        simp only [acceptHandler, h, hst, hpd, ne_eq, not_true_eq_false, if_false] at hc
        have := mkCreateCmd_some _ _ _ hc
        exact ⟨this.1, hst⟩
    · simp only [acceptHandler, h, if_pos hst] at hc
      exact absurd hc (by simp)
  · intro rides rid body scfg r d h hst hpd
    refine ⟨applyPay { r with status := RideStatus.accepted, driverId := some d }
      (mkCreateCmd { r with status := RideStatus.accepted, driverId := some d } scfg)
      none, ?_, ?_, ?_⟩
    · simp only [acceptHandler, h, hst, hpd, ne_eq, not_true_eq_false, if_false]
    · simp only [acceptHandler, h, hst, hpd, ne_eq, not_true_eq_false, if_false,
        setRide, ite_true, eq_self_iff_true]
    · rw [applyPay_eq_self _ _ _ (Or.inr rfl)]
      exact ⟨rfl, rfl, rfl⟩

/-- C3 witness: accepting the demo ride with Stripe configured but the
processor failing still succeeds, binds the driver and leaves no
authorization attached. -/
theorem payment_auth_invariants_witness :
    ∃ r', (acceptHandler demoStore "ride_1" (some "drv") true none).2.2 = Except.ok r' ∧
      (acceptHandler demoStore "ride_1" (some "drv") true none).1 "ride_1" = some r' ∧
      r'.status = RideStatus.accepted ∧ r'.driverId = some "drv" ∧
      r'.paymentIntentId = demoRide.paymentIntentId :=
  payment_auth_invariants.2.2 demoStore "ride_1" (some "drv") true demoRide "drv"
    rfl rfl (by decide)

/-- Concrete create command issued when accepting the demo ride. -/
def exampleCreateCmd : PaymentCreateCmd :=
  { amountCents := max 1 (jsRound ((10 : ℚ) * 100)), currency := "usd", manualCapture := true,
    metadataRideId := "ride_1", idempotencyKey := "ride_accept_ride_1" }

/-- Concrete capture command issued when completing `paidRide`. -/
def exampleCaptureCmd : PaymentCaptureCmd :=
  { paymentIntentId := "pi_9", idempotencyKey := "ride_complete_ride_3" }

/-- C6 (amended): the authorization created on accept carries the
idempotency key `ride_accept_<rideId>` and the capture issued on complete
carries `ride_complete_<rideId>` (and captures exactly the stored
authorization). -/
theorem payment_idempotency_keys :
    (∀ (rides : RideStore) (rid : String) (body : Option String) (scfg : Bool)
        (pay : Option String) (r : Ride) (c : PaymentCreateCmd),
        rides rid = some r →
        (acceptHandler rides rid body scfg pay).2.1 = some c →
        c.idempotencyKey = "ride_accept_" ++ r.id)
    ∧ (∀ (rides : RideStore) (rid : String) (scfg : Bool) (r : Ride)
        (cap : PaymentCaptureCmd),
        rides rid = some r →
        (completeHandler rides rid scfg).2.1 = some cap →
        cap.idempotencyKey = "ride_complete_" ++ r.id ∧
        r.paymentIntentId = some cap.paymentIntentId) := by
  constructor
  · intro rides rid body scfg pay r c h hc
    by_cases hst : r.status = RideStatus.requested
    · cases hpd : parseDriverId body with
      | none =>
        simp only [acceptHandler, h, hst, hpd, ne_eq, not_true_eq_false, if_false] at hc
        exact absurd hc (by simp)
      | some d =>
        simp only [acceptHandler, h, hst, hpd, ne_eq, not_true_eq_false, if_false] at hc
        exact (mkCreateCmd_some _ _ _ hc).2.2.1
    · simp only [acceptHandler, h, if_pos hst] at hc
      exact absurd hc (by simp)
  · intro rides rid scfg r cap h hc
    by_cases hst : r.status ≠ RideStatus.inProgress ∧ r.status ≠ RideStatus.accepted
    · simp only [completeHandler, h, if_pos hst] at hc
      exact absurd hc (by simp)
    · cases hpi : r.paymentIntentId with
      | none =>
        simp only [completeHandler, h, if_neg hst, hpi] at hc
        exact absurd hc (by simp)
      | some pi =>
        by_cases hs : scfg = true
        · simp only [completeHandler, h, if_neg hst, hpi, hs, if_true,
            Option.some.injEq] at hc
          rw [← hc]
          exact ⟨rfl, rfl⟩
        · simp only [completeHandler, h, if_neg hst, hpi, if_neg hs] at hc
          exact absurd hc (by simp)

/-- C6 witness: the concrete commands issued on the demo stores carry the
`ride_accept_` / `ride_complete_` keys. -/
theorem payment_idempotency_keys_witness :
    exampleCreateCmd.idempotencyKey = "ride_accept_" ++ demoRide.id ∧
    exampleCaptureCmd.idempotencyKey = "ride_complete_" ++ paidRide.id ∧
    paidRide.paymentIntentId = some exampleCaptureCmd.paymentIntentId :=
  ⟨payment_idempotency_keys.1 demoStore "ride_1" (some "drv") true (some "pi_1")
      demoRide exampleCreateCmd rfl (by rfl),
   (payment_idempotency_keys.2 paidStore "ride_3" true paidRide exampleCaptureCmd
      rfl (by decide)).1,
   (payment_idempotency_keys.2 paidStore "ride_3" true paidRide exampleCaptureCmd
      rfl (by decide)).2⟩

/-- C6 counterexample: the keys the code sends are `ride_accept_ride_1`
and `ride_complete_ride_3`, which differ from the `accept:<rideId>` and
`complete:<rideId>` keys the claim states. -/
theorem payment_idempotency_keys_cex :
    (acceptHandler demoStore "ride_1" (some "drv") true (some "pi_1")).2.1.map
        PaymentCreateCmd.idempotencyKey = some "ride_accept_ride_1" ∧
    (completeHandler paidStore "ride_3" true).2.1.map
        PaymentCaptureCmd.idempotencyKey = some "ride_complete_ride_3" ∧
    "ride_accept_ride_1" ≠ "accept:" ++ "ride_1" ∧
    "ride_complete_ride_3" ≠ "complete:" ++ "ride_3" := by
  refine ⟨?_, ?_, by decide, by decide⟩ <;> rfl

/-- C7 (amended): for a known ride the location update succeeds exactly
when latitude lies in [-90, 90] and longitude in [-180, 180], regardless
of the ride's status; on success the live coordinate is overwritten, and
an out-of-range value fails with `VALIDATION_ERROR` leaving the store
unchanged. -/
theorem driver_location_range (rides : RideStore) (rid : String) (lat lng : ℚ)
    (r : Ride) (h : rides rid = some r) :
    ((driverLocationHandler rides rid lat lng).2 = Except.ok () ↔
      (-90 ≤ lat ∧ lat ≤ 90 ∧ -180 ≤ lng ∧ lng ≤ 180))
    ∧ ((-90 ≤ lat ∧ lat ≤ 90 ∧ -180 ≤ lng ∧ lng ≤ 180) →
        (driverLocationHandler rides rid lat lng).1 rid =
          some { r with driverLat := some lat, driverLng := some lng })
    ∧ (¬(-90 ≤ lat ∧ lat ≤ 90 ∧ -180 ≤ lng ∧ lng ≤ 180) →
        (driverLocationHandler rides rid lat lng).2 = Except.error ErrCode.validationError ∧
        (driverLocationHandler rides rid lat lng).1 = rides) := by
  by_cases hv : -90 ≤ lat ∧ lat ≤ 90 ∧ -180 ≤ lng ∧ lng ≤ 180
  · refine ⟨by simp [driverLocationHandler, h, hv], ?_, fun hn => absurd hv hn⟩
    intro _
    simp [driverLocationHandler, h, hv, setRide]
  · refine ⟨?_, fun hp => absurd hp hv, ?_⟩
    · simp [driverLocationHandler, h, hv]
    · intro _
      simp [driverLocationHandler, h, hv]

/-- C7 witness: the boundary-valid coordinate (latitude -90, longitude
180) is accepted on the demo ride. -/
theorem driver_location_range_witness :
    (driverLocationHandler demoStore "ride_1" (-90) 180).2 = Except.ok () :=
  (driver_location_range demoStore "ride_1" (-90) 180 demoRide rfl).1.mpr (by decide)

/-- C7 counterexample: the handler performs no status check — a ride
already in the terminal status `completed` still accepts a location
update, so success is not restricted to non-terminal rides. -/
theorem driver_location_terminal_cex :
    (driverLocationHandler doneStore "ride_2" 0 0).2 = Except.ok () ∧
    doneRide.status = RideStatus.completed := by
  constructor
  · simp [driverLocationHandler, doneStore, doneRide]
  · rfl

/-- The deduplicator state at process start: an empty in-memory set (used
with Supabase unconfigured). -/
def emptyWebhookState : WebhookState :=
  { dbReady := false, dbEvents := [], memEvents := [] }

/-- C4: delivering a verified event twice has exactly one state effect —
the first delivery marks the id processed and is acknowledged with the
event type, the second leaves the state untouched and is acknowledged as
a duplicate; and marking itself is idempotent (insert-if-absent). -/
theorem webhook_dedup (s : WebhookState) (sig : String) (eid etype : String)
    (hmem : s.memEvents.length <= 1000)
    (hnew : isEventProcessed s eid = false) :
    (handleWebhook s (some sig) true eid etype).2 = WebhookResponse.processedAck etype
    ∧ (handleWebhook s (some sig) true eid etype).1 = markEventProcessed s eid
    ∧ isEventProcessed (handleWebhook s (some sig) true eid etype).1 eid = true
    ∧ handleWebhook (handleWebhook s (some sig) true eid etype).1 (some sig) true eid etype
        = ((handleWebhook s (some sig) true eid etype).1, WebhookResponse.duplicateAck)
    ∧ markEventProcessed (markEventProcessed s eid) eid = markEventProcessed s eid := by
  have hstep : handleWebhook s (some sig) true eid etype
      = (markEventProcessed s eid, WebhookResponse.processedAck etype) := by
    simp [handleWebhook, hnew]
  have hproc : isEventProcessed (markEventProcessed s eid) eid = true :=
    isEventProcessed_mark s eid hmem
  refine ⟨by rw [hstep], by rw [hstep], by rw [hstep]; exact hproc, ?_,
    markEventProcessed_idem s eid hmem⟩
  rw [hstep]
  simp [handleWebhook, hproc]

/-- C4 witness: delivering event `evt_1` twice to the fresh in-memory
state acknowledges the first delivery and flags the second as duplicate
with no state change. -/
theorem webhook_dedup_witness :
    (handleWebhook emptyWebhookState (some "sig") true "evt_1" "payment_intent.succeeded").2
        = WebhookResponse.processedAck "payment_intent.succeeded"
    ∧ (handleWebhook emptyWebhookState (some "sig") true "evt_1" "payment_intent.succeeded").1
        = markEventProcessed emptyWebhookState "evt_1"
    ∧ isEventProcessed
        (handleWebhook emptyWebhookState (some "sig") true "evt_1" "payment_intent.succeeded").1
        "evt_1" = true
    ∧ handleWebhook
        (handleWebhook emptyWebhookState (some "sig") true "evt_1" "payment_intent.succeeded").1
        (some "sig") true "evt_1" "payment_intent.succeeded"
        = ((handleWebhook emptyWebhookState (some "sig") true "evt_1"
            "payment_intent.succeeded").1, WebhookResponse.duplicateAck)
    ∧ markEventProcessed (markEventProcessed emptyWebhookState "evt_1") "evt_1"
        = markEventProcessed emptyWebhookState "evt_1" :=
  webhook_dedup emptyWebhookState "sig" "evt_1" "payment_intent.succeeded"
    (by decide) (by rfl)

/-- C9: a delivery with a missing or unverifiable signature is rejected
with a 400-class response, and neither the dedup state nor the event
record changes (no dedup check is reachable on that path). -/
theorem webhook_sig_reject (s : WebhookState) (sig : Option String) (sigValid : Bool)
    (eid etype : String) (h : sig = none ∨ sigValid = false) :
    (handleWebhook s sig sigValid eid etype).1 = s
    ∧ ((handleWebhook s sig sigValid eid etype).2 = WebhookResponse.missingSignature
       ∨ (handleWebhook s sig sigValid eid etype).2 = WebhookResponse.signatureError) := by
  rcases h with h | h
  · subst h
    exact ⟨rfl, Or.inl rfl⟩
  · cases sig with
    | none => exact ⟨rfl, Or.inl rfl⟩
    | some v =>
      subst h
      exact ⟨rfl, Or.inr rfl⟩

/-- C9 witness: a delivery without a `stripe-signature` header leaves the
state unchanged and is rejected. -/
theorem webhook_sig_reject_witness :
    (handleWebhook emptyWebhookState none true "evt_1" "payment_intent.succeeded").1
        = emptyWebhookState
    ∧ ((handleWebhook emptyWebhookState none true "evt_1" "payment_intent.succeeded").2
          = WebhookResponse.missingSignature
       ∨ (handleWebhook emptyWebhookState none true "evt_1" "payment_intent.succeeded").2
          = WebhookResponse.signatureError) :=
  webhook_sig_reject emptyWebhookState none true "evt_1" "payment_intent.succeeded"
    (Or.inl rfl)

/-- Two rooms with live subscribers, used by the broadcast witness. -/
def demoRooms : Rooms :=
  fun k => if k = "ride_1" then [1, 2] else if k = "ride_9" then [3] else []

/-- C8: a broadcast to a ride id reaches every currently subscribed
connection whose send succeeds; a connection not subscribed to that ride
(in particular one subscribed only to a different ride) receives nothing;
a connection removed before the broadcast receives nothing; a newly added
connection is reached; and a send failure on one connection does not
prevent delivery to any other connection (the broadcast itself is a total
function — the caller never fails). -/
theorem broadcast_fanout :
    (∀ (rooms : Rooms) (rid : String) (sendOk : Conn → Bool) (c : Conn),
        c ∈ rooms rid → sendOk c = true → c ∈ broadcastDelivered rooms rid sendOk)
    ∧ (∀ (rooms : Rooms) (rid : String) (sendOk : Conn → Bool) (c : Conn),
        c ∉ rooms rid → c ∉ broadcastDelivered rooms rid sendOk)
    ∧ (∀ (rooms : Rooms) (rid : String) (sendOk : Conn → Bool) (c : Conn),
        c ∉ broadcastDelivered (removeSocketFromRide rooms rid c) rid sendOk)
    ∧ (∀ (rooms : Rooms) (rid : String) (sendOk : Conn → Bool) (c : Conn),
        sendOk c = true →
        c ∈ broadcastDelivered (addSocketToRide rooms rid c) rid sendOk)
    ∧ (∀ (rooms : Rooms) (rid : String) (sendOk : Conn → Bool) (c c' : Conn),
        c' ∈ rooms rid → c' ≠ c → sendOk c' = true →
        c' ∈ broadcastDelivered rooms rid (fun x => if x = c then false else sendOk x)) := by
  refine ⟨?_, ?_, ?_, ?_, ?_⟩
  · intro rooms rid sendOk c hc hs
    exact List.mem_filter.mpr ⟨hc, hs⟩
  · intro rooms rid sendOk c hc hmem
    exact hc (List.mem_filter.mp hmem).1
  · intro rooms rid sendOk c hmem
    have hin := (List.mem_filter.mp hmem).1
    simp [removeSocketFromRide] at hin
  · intro rooms rid sendOk c hs
    refine List.mem_filter.mpr ⟨?_, hs⟩
    by_cases hin : c ∈ rooms rid <;> simp [addSocketToRide, hin]
  · intro rooms rid sendOk c c' hc' hne hs
    refine List.mem_filter.mpr ⟨hc', ?_⟩
    simp [hne, hs]

/-- C8 witness: with connections 1 and 2 subscribed to `ride_1` and
connection 3 subscribed only to `ride_9`, a broadcast to `ride_1` during
which the send to connection 2 fails still reaches connection 1, and
connection 3 receives nothing. -/
theorem broadcast_fanout_witness :
    (1 : Conn) ∈ broadcastDelivered demoRooms "ride_1"
        (fun x => if x = 2 then false else (fun _ => true) x)
    ∧ (3 : Conn) ∉ broadcastDelivered demoRooms "ride_1" (fun _ => true)
    ∧ (2 : Conn) ∉ broadcastDelivered (removeSocketFromRide demoRooms "ride_1" 2)
        "ride_1" (fun _ => true) :=
  ⟨broadcast_fanout.2.2.2.2 demoRooms "ride_1" (fun _ => true) 2 1
      (by decide) (by decide) rfl,
   broadcast_fanout.2.1 demoRooms "ride_1" (fun _ => true) 3 (by decide),
   broadcast_fanout.2.2.1 (fun k => demoRooms k) "ride_1" (fun _ => true) 2⟩

/-- A fare of the form `max(5, k/100)` is an integer number of cents. -/
theorem max5_cents (k : ℤ) : ∃ n : ℤ, max (5 : ℝ) ((k : ℝ) / 100) = (n : ℝ) / 100 := by
  rcases le_total ((k : ℝ) / 100) 5 with h | h
  · refine ⟨500, ?_⟩
    rw [max_eq_left h]
    norm_num
  · exact ⟨k, max_eq_right h⟩

/-- C5: the fare estimate is a pure function of pickup, dropoff and ride
class — the quote attached at ride creation coincides with the standalone
quote endpoint; both equal the spec formula `max(5, round_to_cents(2.5 +
haversine_km * rate))` with rates 1.2/1.8/2.0; the price is always at
least 5 and is an integer number of cents. -/
theorem fare_estimator_spec :
    (∀ (p d : GeoPoint) (c : RideClass),
        rideCreationQuoteUsd p d c = quoteEstimateUsd p d c)
    ∧ (∀ (p d : GeoPoint) (c : RideClass),
        quoteEstimateUsd p d c = specFare (haversineKm p d) c)
    ∧ (∀ (p d : GeoPoint) (c : RideClass), 5 ≤ quoteEstimateUsd p d c)
    ∧ (∀ (p d : GeoPoint) (c : RideClass),
        ∃ n : ℤ, quoteEstimateUsd p d c = (n : ℝ) / 100) := by
  refine ⟨?_, ?_, ?_, ?_⟩
  · intro p d c
    cases c <;> rfl
  · intro p d c
    cases c <;> rfl
  · intro p d c
    cases c <;> exact le_max_left _ _
  · intro p d c
    cases c <;> exact max5_cents _

end UberClone
